import Mathlib

/-!
Verification of the MeetAI repository: a shallow embedding of the
page-level authentication redirects, the agent chat panel, the voice-chat
recorder, and the agents data-table columns, with theorems settling the
specified properties.
-/

namespace MeetAI

/-! ### Session values and page-level authentication -/

/-- A value that the auth library getSession call can resolve to, as
exercised by the page tests: null, undefined, false, or an object
(possibly empty, possibly holding a user). -/
inductive SessionValue where
  | nullV
  | undefinedV
  | falseV
  | obj (hasUser : Bool)
deriving DecidableEq, Repr

/-- JavaScript truthiness of a session value: null, undefined and false
are falsy; any object is truthy. -/
def SessionValue.truthy : SessionValue → Bool
  | .obj _ => true
  | _ => false

/-- Request headers, an association list of header names to values. -/
abbrev Headers := List (String × String)

/-- What a page does after its session check: issue a redirect to a
route, or render a named view. -/
inductive PageResult where
  | redirectTo (route : String)
  | render (view : String)
deriving DecidableEq, Repr

/-- The observable trace of one page invocation: the headers passed to
getSession (if it was called) and the final result. -/
structure PageTrace where
  sessionQuery : Option Headers
  result : PageResult
deriving DecidableEq, Repr

/-- Modelled from the spec: the protected home page component
(app/page.tsx) is not among the visible source files; only its test
suites are. Per the spec, the page obtains the request headers, calls
the auth library getSession with those headers, redirects to the
sign-in route when no session is present and renders HomeView when a
session exists. -/
def homePage (hdrs : Headers) (getSession : Headers → SessionValue) : PageTrace :=
  let s := getSession hdrs
  { sessionQuery := some hdrs
    result := if s.truthy then .render "HomeView" else .redirectTo "/sign-in" }

/-- Modelled from the spec: the sign-in page component is not among the
visible source files; only its test suite is. Per the spec, an auth
page calls getSession with the request headers, redirects to the home
route when a session exists and renders SignInView when no session is
present. -/
def signInPage (hdrs : Headers) (getSession : Headers → SessionValue) : PageTrace :=
  let s := getSession hdrs
  { sessionQuery := some hdrs
    result := if s.truthy then .redirectTo "/" else .render "SignInView" }

/-! ### Agent data and the chat panel (agent-id-view.tsx) -/

/-- The agent record consumed by the agent id view and the columns:
name, instructions (nullable in the defensive source code), and a
meeting count. -/
structure AgentData where
  name : String
  instructions : Option String
  meetingCount : Nat
deriving DecidableEq, Repr

/-- One entry of the chat history, with a role string and the text. -/
structure ChatMessage where
  role : String
  content : String
deriving DecidableEq, Repr

/-- The local state of the chat panel: the messages list and the text
currently in the input field. -/
structure ChatState where
  messages : List ChatMessage
  input : String
deriving DecidableEq, Repr

/-- The JavaScript string trim primitive: leading and trailing
whitespace characters removed. -/
def jsTrim (s : String) : String :=
  ⟨((s.data.dropWhile Char.isWhitespace).reverse.dropWhile
      Char.isWhitespace).reverse⟩

/-- A POST request to the chat backend, with the JSON body fields
spelled out. -/
structure ChatRequest where
  url : String
  agentname : String
  message : String
  persona : String
deriving DecidableEq, Repr

/-- How the chat backend round trip ends: a parsed response string, or
a failure (network error, non-ok response, or malformed reply, all of
which make the awaited fetch or json call reject). -/
inductive BackendOutcome where
  | ok (response : String)
  | failed
deriving DecidableEq, Repr

/-- The observable outcome of one sendMessage invocation: the resulting
component state, the requests issued, any user-visible toast, alert or
status message shown, and whether an exception escaped unhandled. -/
structure ChatRunResult where
  state : ChatState
  requests : List ChatRequest
  shown : Option String
  threw : Bool
deriving DecidableEq, Repr

/-- The sendMessage function of agent-id-view.tsx. A blank input (the
trimmed input is empty, hence falsy) returns early. Otherwise the
persona is the agent instructions or the empty string, the user entry
is appended and the input cleared, one POST is sent to the chat
backend, and on success the assistant entry holding the backend
response is appended. The function has no try or catch: a failed round
trip propagates out with nothing shown to the user. -/
def sendMessage (data : AgentData) (st : ChatState) (outcome : BackendOutcome) :
    ChatRunResult :=
  if jsTrim st.input = "" then
    { state := st, requests := [], shown := none, threw := false }
  else
    let persona := data.instructions.getD ""
    let st1 : ChatState :=
      { messages := st.messages ++ [⟨"user", st.input⟩], input := "" }
    let req : ChatRequest :=
      { url := "http://localhost:8000/chat"
        agentname := data.name
        message := st.input
        persona := persona }
    match outcome with
    | .ok response =>
        { state := { st1 with messages := st1.messages ++ [⟨"assistant", response⟩] }
          requests := [req]
          shown := none
          threw := false }
    | .failed =>
        { state := st1, requests := [req], shown := none, threw := true }

/-! ### Voice chat (voice-chat.tsx) -/

/-- Audio data as an abstract byte list. -/
abbrev Blob := List Nat

/-- A microphone media stream: the liveness flag of each of its tracks
(true means the track is live, false means it has been stopped). -/
structure MediaStream where
  tracks : List Bool
deriving DecidableEq, Repr

/-- getUserMedia grants a stream whose tracks are all live. -/
def getUserMedia (trackCount : Nat) : MediaStream :=
  { tracks := List.replicate trackCount true }

/-- The MediaRecorder lifecycle phase. -/
inductive RecorderPhase where
  | recordingPhase
  | inactive
deriving DecidableEq, Repr

/-- A MediaRecorder together with the stream it records. -/
structure Recorder where
  phase : RecorderPhase
  stream : MediaStream
deriving DecidableEq, Repr

/-- The local state of the VoiceChat component: the recorder ref, the
collected chunks, the recording flag and the status line. -/
structure VoiceState where
  recorder : Option Recorder
  chunks : List Blob
  recording : Bool
  status : String
deriving DecidableEq, Repr

/-- The VoiceChat component state before any interaction. -/
def initialVoiceState : VoiceState :=
  { recorder := none, chunks := [], recording := false, status := "" }

/-- startRecording of voice-chat.tsx after getUserMedia resolves: a new
MediaRecorder is created over the acquired stream, the chunk list is
reset, the recorder is started, the recording flag is set and the
status updated. -/
def startRecording (vs : VoiceState) (stream : MediaStream) : VoiceState :=
  { vs with
      recorder := some { phase := .recordingPhase, stream := stream }
      chunks := []
      recording := true
      status := "Recording... Speak now!" }

/-- stopRecording of voice-chat.tsx: when a recorder exists, it calls
stop on the recorder, clears the recording flag and sets the status.
Stopping a MediaRecorder ends data gathering but does not end the
tracks of its stream, and the component never calls stop on any track,
so track liveness is unchanged. -/
def stopRecording (vs : VoiceState) : VoiceState :=
  match vs.recorder with
  | some r =>
      { vs with
          recorder := some { r with phase := .inactive }
          recording := false
          status := "Stopped recording." }
  | none => vs

/-- The liveness flags of the tracks of the stream held by the recorder
ref, empty when no stream was acquired. -/
def acquiredTracks (vs : VoiceState) : List Bool :=
  match vs.recorder with
  | some r => r.stream.tracks
  | none => []

/-- The onstop handler assembles the collected chunks into a single
blob (new Blob over the chunk array). -/
def assembleBlob (chunks : List Blob) : Blob :=
  chunks.flatten

/-- One POST request to the voice backend: a multipart form holding the
audio blob under a file field, plus the agent name and persona. -/
structure VoiceRequest where
  url : String
  method : String
  fileField : String
  fileBlob : Blob
  fileName : String
  agentname : String
  persona : String
deriving DecidableEq, Repr

/-- How the voice backend round trip ends: a reply audio blob, or a
failure (non-ok response, network failure, or malformed reply). -/
inductive VoiceOutcome where
  | ok (audio : Blob)
  | failed
deriving DecidableEq, Repr

/-- The observable outcome of one sendToBackend invocation. -/
structure VoiceRunResult where
  requests : List VoiceRequest
  status : String
  replyAudio : Option Blob
  threw : Bool
deriving DecidableEq, Repr

/-- The request built by sendToBackend of voice-chat.tsx: the blob is
appended under the field file with the filename input.webm, the agent
name and persona are appended, and the form is POSTed to the voicechat
endpoint of the voice backend. -/
def sendToBackend (voiceApiUrl agentName agentPersona : String) (blob : Blob) :
    VoiceRequest :=
  { url := voiceApiUrl ++ "/voicechat/"
    method := "POST"
    fileField := "file"
    fileBlob := blob
    fileName := "input.webm"
    agentname := agentName
    persona := agentPersona }

/-- The full sendToBackend run of voice-chat.tsx: the body is wrapped
in try and catch, so on success the reply audio is played and the
status updated, and on any failure the catch sets a visible error
status and nothing escapes. -/
def sendToBackendRun (voiceApiUrl agentName agentPersona : String) (blob : Blob)
    (outcome : VoiceOutcome) : VoiceRunResult :=
  let req := sendToBackend voiceApiUrl agentName agentPersona blob
  match outcome with
  | .ok audio =>
      { requests := [req]
        status := "Playing TTS reply..."
        replyAudio := some audio
        threw := false }
  | .failed =>
      { requests := [req]
        status := "Error processing voice chat"
        replyAudio := none
        threw := false }

/-! ### Avatar invocations and the agents table columns -/

/-- One invocation of the GeneratedAvatar component: the variant and
the seed it is rendered with. -/
structure AvatarInvocation where
  variant : String
  seed : String
deriving DecidableEq, Repr

/-- The GeneratedAvatar invocation in AgentIdView (agent-id-view.tsx):
variant botttsNeutral, seeded with the agent name. -/
def agentIdViewAvatar (data : AgentData) : AvatarInvocation :=
  { variant := "botttsNeutral", seed := data.name }

/-- The GeneratedAvatar invocation in the name column cell of the
agents table columns: variant botttsNeutral, seeded with the row agent
name. -/
def agentColumnsNameAvatar (row : AgentData) : AvatarInvocation :=
  { variant := "botttsNeutral", seed := row.name }

/-- A rendered badge cell: the icon shown and the text content. -/
structure BadgeCell where
  icon : String
  text : String
deriving DecidableEq, Repr

/-- The Meetings column cell of the agents table columns: the cell
function ignores its row and renders a badge with a video icon and the
literal text 3 Meetings (the row-dependent rendering is commented out
in the source). -/
def meetingsColumnCell (_row : AgentData) : BadgeCell :=
  { icon := "VideoIcon", text := "3 Meetings" }

/-! ### Theorems -/

/-- C1: for every request to the protected home page, the page calls
getSession with the request headers; when getSession resolves to null,
undefined or false the page redirects to the sign-in route and does not
render HomeView; when any session value is present the page renders
HomeView and performs no redirect. -/
theorem homePage_session_check (hdrs : Headers)
    (getSession : Headers → SessionValue) :
    (homePage hdrs getSession).sessionQuery = some hdrs ∧
    ((getSession hdrs = .nullV ∨ getSession hdrs = .undefinedV ∨
        getSession hdrs = .falseV) →
      (homePage hdrs getSession).result = .redirectTo "/sign-in") ∧
    ((getSession hdrs).truthy = true →
      (homePage hdrs getSession).result = .render "HomeView") := by
  refine ⟨rfl, ?_, ?_⟩
  · intro h
    rcases h with h | h | h <;> simp [homePage, h, SessionValue.truthy]
  · intro h
    simp [homePage, h]

/-- C1 witness: a concrete request with a null session redirects to the
sign-in route, and one with a session object renders HomeView. -/
theorem homePage_session_check_witness :
    (homePage [("user-agent", "test")] (fun _ => .nullV)).result =
      .redirectTo "/sign-in" ∧
    (homePage [("user-agent", "test")] (fun _ => .obj true)).result =
      .render "HomeView" :=
  ⟨(homePage_session_check [("user-agent", "test")] (fun _ => .nullV)).2.1
      (Or.inl rfl),
   (homePage_session_check [("user-agent", "test")] (fun _ => .obj true)).2.2
      rfl⟩

/-- C2: for every request to the sign-in page, the page calls getSession
with the request headers; when a session is present the page redirects to
the home route and does not render SignInView; when getSession resolves
to null or undefined no redirect occurs and SignInView is rendered. -/
theorem signInPage_session_check (hdrs : Headers)
    (getSession : Headers → SessionValue) :
    (signInPage hdrs getSession).sessionQuery = some hdrs ∧
    ((getSession hdrs).truthy = true →
      (signInPage hdrs getSession).result = .redirectTo "/") ∧
    ((getSession hdrs = .nullV ∨ getSession hdrs = .undefinedV) →
      (signInPage hdrs getSession).result = .render "SignInView") := by
  refine ⟨rfl, ?_, ?_⟩
  · intro h
    simp [signInPage, h]
  · intro h
    rcases h with h | h <;> simp [signInPage, h, SessionValue.truthy]

/-- C2 witness: a concrete request with a session object redirects to the
home route, and one with a null session renders SignInView. -/
theorem signInPage_session_check_witness :
    (signInPage [("user-agent", "test")] (fun _ => .obj true)).result =
      .redirectTo "/" ∧
    (signInPage [("user-agent", "test")] (fun _ => .nullV)).result =
      .render "SignInView" :=
  ⟨(signInPage_session_check [("user-agent", "test")] (fun _ => .obj true)).2.1
      rfl,
   (signInPage_session_check [("user-agent", "test")] (fun _ => .nullV)).2.2
      (Or.inl rfl)⟩

/-- C3: for every non-blank submitted message, sendMessage issues exactly
one POST to the chat backend whose JSON body has agentname equal to the
agent name, message equal to the typed text, and persona equal to the
agent instructions. -/
theorem sendMessage_request_shape (data : AgentData) (st : ChatState)
    (outcome : BackendOutcome) (p : String)
    (hblank : jsTrim st.input ≠ "") (hp : data.instructions = some p) :
    (sendMessage data st outcome).requests =
      [{ url := "http://localhost:8000/chat", agentname := data.name,
         message := st.input, persona := p }] := by
  cases outcome <;> simp [sendMessage, hblank, hp]

/-- C3 witness: a concrete non-blank message produces exactly the one
expected chat request. -/
theorem sendMessage_request_shape_witness :
    (sendMessage ⟨"Math Tutor", some "Be helpful", 2⟩ ⟨[], "hello"⟩
        (.ok "hi")).requests =
      [{ url := "http://localhost:8000/chat", agentname := "Math Tutor",
         message := "hello", persona := "Be helpful" }] :=
  sendMessage_request_shape ⟨"Math Tutor", some "Be helpful", 2⟩ ⟨[], "hello"⟩
    (.ok "hi") "Be helpful" (by decide) rfl

/-- C4 counterexample: a chat backend failure on a concrete non-blank
message shows no toast, alert or status message at all, and the
rejection escapes unhandled, contradicting the claim that every chat or
voice backend error is surfaced as a visible message. -/
theorem sendMessage_failure_shows_nothing :
    (sendMessage ⟨"Math Tutor", some "Be helpful", 2⟩ ⟨[], "hello"⟩
        .failed).shown = none ∧
    (sendMessage ⟨"Math Tutor", some "Be helpful", 2⟩ ⟨[], "hello"⟩
        .failed).threw = true := by
  decide

/-- C4 amended: every voice backend error is caught and surfaced as a
visible status message with nothing escaping, but chat backend errors in
sendMessage are not surfaced: no message is shown and the rejection
propagates unhandled. -/
theorem backend_error_surfacing (voiceApiUrl agentName agentPersona : String)
    (blob : Blob) (data : AgentData) (st : ChatState)
    (hblank : jsTrim st.input ≠ "") :
    (sendToBackendRun voiceApiUrl agentName agentPersona blob .failed).status =
        "Error processing voice chat" ∧
    (sendToBackendRun voiceApiUrl agentName agentPersona blob .failed).threw =
        false ∧
    (sendMessage data st .failed).shown = none ∧
    (sendMessage data st .failed).threw = true := by
  refine ⟨rfl, rfl, ?_, ?_⟩ <;> simp [sendMessage, hblank]

/-- C4 amended witness: the amended behavior at a concrete voice failure
and a concrete chat failure. -/
theorem backend_error_surfacing_witness :
    (sendToBackendRun "http://localhost:8001" "Math Tutor" "Be helpful"
        [1, 2] .failed).status = "Error processing voice chat" ∧
    (sendMessage ⟨"Math Tutor", some "Be helpful", 2⟩ ⟨[], "hello"⟩
        .failed).threw = true :=
  ⟨(backend_error_surfacing "http://localhost:8001" "Math Tutor" "Be helpful"
      [1, 2] ⟨"Math Tutor", some "Be helpful", 2⟩ ⟨[], "hello"⟩ (by decide)).1,
   (backend_error_surfacing "http://localhost:8001" "Math Tutor" "Be helpful"
      [1, 2] ⟨"Math Tutor", some "Be helpful", 2⟩ ⟨[], "hello"⟩
      (by decide)).2.2.2⟩

/-- C5: for every completed recording, the collected chunks are assembled
into a single blob and exactly one POST is sent to the voicechat endpoint
of the voice backend, a multipart form holding that blob under the field
file together with the agent name and persona. -/
theorem voice_upload_shape (voiceApiUrl agentName agentPersona : String)
    (chunks : List Blob) (outcome : VoiceOutcome) :
    (sendToBackendRun voiceApiUrl agentName agentPersona (assembleBlob chunks)
        outcome).requests =
      [{ url := voiceApiUrl ++ "/voicechat/", method := "POST",
         fileField := "file", fileBlob := assembleBlob chunks,
         fileName := "input.webm", agentname := agentName,
         persona := agentPersona }] := by
  cases outcome <;> rfl

/-- C6 counterexample: a concrete recording gesture over a one-track
microphone stream, followed by stopRecording, leaves that track live:
the component never calls stop on any track of the acquired stream,
contradicting the claim that no track remains live after stopRecording. -/
theorem stopRecording_leaves_track_live :
    acquiredTracks
        (stopRecording (startRecording initialVoiceState (getUserMedia 1))) =
      [true] ∧
    true ∈ acquiredTracks
        (stopRecording (startRecording initialVoiceState (getUserMedia 1))) := by
  decide

/-- C6 amended: stopRecording after an active recording stops the
MediaRecorder and clears the recording flag, but the tracks of the
acquired microphone stream are left exactly as they were at acquisition,
so every acquired track remains live. -/
theorem stopRecording_keeps_tracks (vs : VoiceState) (stream : MediaStream) :
    (stopRecording (startRecording vs stream)).recording = false ∧
    (stopRecording (startRecording vs stream)).recorder =
      some { phase := .inactive, stream := stream } ∧
    acquiredTracks (stopRecording (startRecording vs stream)) = stream.tracks :=
  ⟨rfl, rfl, rfl⟩

/-- C7: both places an avatar is rendered for an agent pass the agent
name as the seed with the same variant, so any two renders with equal
agent names produce identical avatar invocations. -/
theorem avatar_seed_deterministic (a b : AgentData) (h : a.name = b.name) :
    agentIdViewAvatar a = agentIdViewAvatar b ∧
    agentColumnsNameAvatar a = agentColumnsNameAvatar b ∧
    agentIdViewAvatar a = agentColumnsNameAvatar b := by
  simp [agentIdViewAvatar, agentColumnsNameAvatar, AvatarInvocation.mk.injEq, h]

/-- C7 witness: two concrete agents with equal names but different
instructions and meeting counts get identical avatar invocations across
the two render sites. -/
theorem avatar_seed_deterministic_witness :
    agentIdViewAvatar ⟨"Tutor", some "x", 1⟩ =
      agentColumnsNameAvatar ⟨"Tutor", none, 5⟩ :=
  (avatar_seed_deterministic ⟨"Tutor", some "x", 1⟩ ⟨"Tutor", none, 5⟩ rfl).2.2

/-- C8: the Meetings column cell renders the constant text 3 Meetings for
every row, independent of the meetingCount value of the row. -/
theorem meetings_cell_constant (row r1 r2 : AgentData) :
    (meetingsColumnCell row).text = "3 Meetings" ∧
    meetingsColumnCell r1 = meetingsColumnCell r2 :=
  ⟨rfl, rfl⟩

/-- C9: when the chat input is blank (empty or whitespace only),
sendMessage is a no-op: no request is issued, nothing is shown or thrown,
and the component state is unchanged. -/
theorem sendMessage_blank_noop (data : AgentData) (st : ChatState)
    (outcome : BackendOutcome) (hblank : jsTrim st.input = "") :
    sendMessage data st outcome =
      { state := st, requests := [], shown := none, threw := false } := by
  simp [sendMessage, hblank]

/-- C9 witness: a concrete whitespace-only input leaves the concrete
state untouched and sends nothing. -/
theorem sendMessage_blank_noop_witness :
    sendMessage ⟨"Math Tutor", some "Be helpful", 2⟩
        ⟨[⟨"user", "hi"⟩], "   "⟩ (.ok "hi") =
      { state := ⟨[⟨"user", "hi"⟩], "   "⟩, requests := [], shown := none,
        threw := false } :=
  sendMessage_blank_noop ⟨"Math Tutor", some "Be helpful", 2⟩
    ⟨[⟨"user", "hi"⟩], "   "⟩ (.ok "hi") (by decide)

/-- C10: the chat history is append-only: every successful sendMessage
leaves the existing messages in place and appends exactly two entries at
the end, first the user entry holding the submitted text and then the
assistant entry holding the backend response. -/
theorem sendMessage_appends_two (data : AgentData) (st : ChatState)
    (response : String) (hblank : jsTrim st.input ≠ "") :
    (sendMessage data st (.ok response)).state.messages =
      st.messages ++ [⟨"user", st.input⟩, ⟨"assistant", response⟩] := by
  simp [sendMessage, hblank]

/-- C10 witness: a concrete successful send appends the user entry and
the assistant entry after the existing history. -/
theorem sendMessage_appends_two_witness :
    (sendMessage ⟨"Math Tutor", some "Be helpful", 2⟩
        ⟨[⟨"user", "hi"⟩, ⟨"assistant", "hey"⟩], "bye"⟩ (.ok "ok")).state.messages =
      [⟨"user", "hi"⟩, ⟨"assistant", "hey"⟩, ⟨"user", "bye"⟩,
        ⟨"assistant", "ok"⟩] :=
  sendMessage_appends_two ⟨"Math Tutor", some "Be helpful", 2⟩
    ⟨[⟨"user", "hi"⟩, ⟨"assistant", "hey"⟩], "bye"⟩ "ok" (by decide)

end MeetAI
